import Mathlib

/-!
Verification of `server.py` from the youtubeHeadTiltSpeedController repository.

The script is modelled as a shallow embedding: every fallible call into the
operating system or the network stack is represented by a field of an
environment record (its outcome in that particular execution), and each
Python function becomes a Lean function from the environment to the trace of
observable events it performs together with its outcome (normal return or
propagated exception).
-/

/-- A Python exception, as far as the script can distinguish them:
`KeyboardInterrupt` is caught by name in `main`; every other exception is
opaque to the script. -/
inductive PyExc where
  | keyboardInterrupt : PyExc
  | other : String → PyExc
deriving DecidableEq, Repr

/-- Outcomes, in one execution, of the four OS calls performed inside the
`try` block of `get_local_ip`: `socket.socket(...)`, `s.connect(("8.8.8.8", 80))`,
`s.getsockname()[0]` (which on success yields the locally bound address as a
string) and `s.close()`. -/
structure NetEnv where
  socketRes : Except PyExc Unit
  connectRes : Except PyExc Unit
  getsocknameRes : Except PyExc String
  closeRes : Except PyExc Unit
deriving Repr

/-- Observable events of `get_local_ip`: each OS call that completed. -/
inductive NetEvent where
  | socketCreate : NetEvent
  | connectCall : NetEvent
  | getsocknameCall : NetEvent
  | closeCall : NetEvent
deriving DecidableEq, Repr

/-- Embedding of `get_local_ip` (src/server.py lines 13-22).

```python
def get_local_ip():
    try:
        s = socket.socket(socket.AF_INET, socket.SOCK_DGRAM)
        s.connect(("8.8.8.8", 80))
        ip = s.getsockname()[0]
        s.close()
        return ip
    except:
        return "localhost"
```

Returns the list of completed events and the outcome seen by the caller.
The bare `except:` catches every exception raised by any of the four steps,
so the outcome is a normal return in every execution; the `Except` codomain
records that the caller would observe a raised exception if there were one. -/
def get_local_ip (env : NetEnv) : List NetEvent × Except PyExc String :=
  match env.socketRes with
  | .error _ => ([], .ok "localhost")
  | .ok _ =>
    match env.connectRes with
    | .error _ => ([.socketCreate], .ok "localhost")
    | .ok _ =>
      match env.getsocknameRes with
      | .error _ => ([.socketCreate, .connectCall], .ok "localhost")
      | .ok ip =>
        match env.closeRes with
        | .error _ => ([.socketCreate, .connectCall, .getsocknameCall], .ok "localhost")
        | .ok _ =>
          ([.socketCreate, .connectCall, .getsocknameCall, .closeCall], .ok ip)

/-- C1: in every execution of `get_local_ip` the caller sees a normal return
(never a raised exception), and whenever any of the four steps of the
address-discovery sequence fails, the returned value is exactly the literal
string "localhost". -/
theorem c1_get_local_ip_fallback (env : NetEnv) :
    (∃ s, (get_local_ip env).2 = Except.ok s) ∧
    (((∃ e, env.socketRes = Except.error e) ∨ (∃ e, env.connectRes = Except.error e) ∨
      (∃ e, env.getsocknameRes = Except.error e) ∨ (∃ e, env.closeRes = Except.error e)) →
      (get_local_ip env).2 = Except.ok "localhost") := by
  obtain ⟨s1, s2, s3, s4⟩ := env
  constructor
  · cases s1 <;> cases s2 <;> cases s3 <;> cases s4 <;> simp [get_local_ip]
  · rintro (⟨e, he⟩ | ⟨e, he⟩ | ⟨e, he⟩ | ⟨e, he⟩) <;>
      cases s1 <;> cases s2 <;> cases s3 <;> cases s4 <;>
      simp_all [get_local_ip]

/-- Witness for C1: a concrete environment where the `connect` step fails,
evaluated to the "localhost" fallback. -/
theorem c1_get_local_ip_fallback_witness :
    (get_local_ip ⟨Except.ok (), Except.error (PyExc.other "OSError"),
        Except.ok "192.168.0.7", Except.ok ()⟩).2 = Except.ok "localhost" :=
  (c1_get_local_ip_fallback _).2 (Or.inr (Or.inl ⟨PyExc.other "OSError", rfl⟩))

/-- C9: in every execution of `get_local_ip` in which all four steps succeed,
the temporary UDP socket is closed before the discovered address is returned:
the returned value is the discovered address, and the very last event
performed before returning is the `close` call. -/
theorem c9_socket_closed_before_return (env : NetEnv) (ip : String)
    (h1 : env.socketRes = Except.ok ()) (h2 : env.connectRes = Except.ok ())
    (h3 : env.getsocknameRes = Except.ok ip) (h4 : env.closeRes = Except.ok ()) :
    (get_local_ip env).2 = Except.ok ip ∧
    (get_local_ip env).1.getLast? = some NetEvent.closeCall ∧
    NetEvent.closeCall ∈ (get_local_ip env).1 := by
  obtain ⟨s1, s2, s3, s4⟩ := env
  simp_all [get_local_ip]

/-- Witness for C9: a concrete fully successful execution. -/
theorem c9_socket_closed_before_return_witness :
    (get_local_ip ⟨Except.ok (), Except.ok (), Except.ok "10.0.0.2", Except.ok ()⟩).2 =
      Except.ok "10.0.0.2" ∧
    (get_local_ip ⟨Except.ok (), Except.ok (), Except.ok "10.0.0.2", Except.ok ()⟩).1.getLast? =
      some NetEvent.closeCall ∧
    NetEvent.closeCall ∈
      (get_local_ip ⟨Except.ok (), Except.ok (), Except.ok "10.0.0.2", Except.ok ()⟩).1 :=
  c9_socket_closed_before_return _ "10.0.0.2" rfl rfl rfl rfl

/-- The fixed listening port (src/server.py line 25). -/
def PORT : Nat := 8000

/-- The separator line `"=" * 50` printed by the banner. -/
def sepLine : String := String.mk (List.replicate 50 '=')

/-- The exact command passed to `os.system` (src/server.py line 34). -/
def opensslCmd : String :=
  "openssl req -new -x509 -keyout cert.pem -out cert.pem -days 365 -nodes -subj \"/CN=localhost\""

/-- Splits a character list into whitespace-separated words (accumulator holds
the current word reversed). Used only to state properties of `opensslCmd`. -/
def wordsAux : List Char → List Char → List String
  | [], acc => if acc.isEmpty then [] else [String.mk acc.reverse]
  | c :: cs, acc =>
    if c = ' ' then
      if acc.isEmpty then wordsAux cs [] else String.mk acc.reverse :: wordsAux cs []
    else wordsAux cs (c :: acc)

/-- The space-separated tokens of a command line string. -/
def cmdTokens (s : String) : List String := wordsAux s.data []

/-- Observable events of `main`: console prints, the external command
invocation, server construction (bind address and port), the TLS wrap of the
listening socket (certificate path, and whether the certificate file exists
on disk at that moment), the call to `get_local_ip`, and entering the serve
loop. -/
inductive Event where
  | printLine : String → Event
  | osSystem : String → Event
  | serverConstruct : String → Nat → Event
  | tlsWrap : String → Bool → Event
  | getLocalIpCall : Event
  | serveForever : Event
deriving DecidableEq, Repr

/-- Environment of one execution of `main`: the state of the world and the
outcome of every fallible call the script makes. -/
structure MainEnv where
  /-- whether `os.path.exists('cert.pem')` holds at startup -/
  certExists : Bool
  /-- the exit status returned by `os.system` (the code never reads it) -/
  opensslExit : Int
  /-- whether the openssl invocation actually produced `cert.pem` -/
  opensslCreatesFile : Bool
  /-- outcome of `http.server.HTTPServer(server_address, ...)` (bind) -/
  serverCtorRes : Except PyExc Unit
  /-- outcome of `ssl.wrap_socket(httpd.socket, ...)` -/
  wrapRes : Except PyExc Unit
  /-- environment for the `get_local_ip` call -/
  net : NetEnv
  /-- the exception that eventually ends `httpd.serve_forever()` -/
  serveRes : PyExc

/-- The two header prints at the top of `main` (lines 27-28). -/
def headerEvents : List Event :=
  [.printLine "🎬 Head Tilt YouTube Controller - Local Server",
   .printLine sepLine]

/-- Events of the certificate-provisioning block (lines 31-34): nothing when
`cert.pem` exists, otherwise two notices and the openssl invocation. -/
def provisionEvents (env : MainEnv) : List Event :=
  if env.certExists then []
  else
    [.printLine "\n📝 Generating self-signed certificate...",
     .printLine "   (You\x27ll need to accept the security warning in your browser)",
     .osSystem opensslCmd]

/-- Whether `cert.pem` exists on disk once the provisioning block has run:
it existed at startup, or the openssl invocation produced it. -/
def certAfterProvision (env : MainEnv) : Bool :=
  env.certExists || env.opensslCreatesFile

/-- The local URL line `f"   https://localhost:{PORT}"`. -/
def localUrl : String := "   https://localhost:" ++ toString PORT

/-- The LAN URL line `f"   https://{local_ip}:{PORT}"`. -/
def lanUrl (ip : String) : String := "   https://" ++ ip ++ ":" ++ toString PORT

/-- The shutdown message printed when `KeyboardInterrupt` is caught (line 60). -/
def shutdownMsg : String := "\n\n👋 Server stopped"

/-- The startup banner prints (lines 47-55), given the resolved local IP. -/
def banner (ip : String) : List Event :=
  [.printLine "\n✅ Server started!",
   .printLine "\n📱 Access on this device:",
   .printLine localUrl,
   .printLine "\n📱 Access on mobile (same WiFi):",
   .printLine (lanUrl ip),
   .printLine "\n⚠️  Note: You\x27ll need to accept the self-signed certificate warning",
   .printLine "    in your browser (this is normal for local development)\n",
   .printLine "Press Ctrl+C to stop the server\n",
   .printLine sepLine]

/-- Embedding of `main` (src/server.py lines 24-60).

```python
def main():
    PORT = 8000
    print("...banner...")
    if not os.path.exists('cert.pem'):
        print(...); print(...)
        os.system('openssl req -new -x509 -keyout cert.pem -out cert.pem -days 365 -nodes -subj "/CN=localhost"')
    server_address = ('', PORT)
    httpd = http.server.HTTPServer(server_address, http.server.SimpleHTTPRequestHandler)
    httpd.socket = ssl.wrap_socket(httpd.socket, certfile='./cert.pem', server_side=True)
    local_ip = get_local_ip()
    print(...urls...)
    try:
        httpd.serve_forever()
    except KeyboardInterrupt:
        print("\n\n... Server stopped")
```

Returns the trace of events and the outcome (`.ok ()` for a normal return,
`.error e` for an exception propagating out of `main`). The result of
`os.system` (`env.opensslExit`) is never consulted, matching the code.
`serve_forever` loops until an exception ends it; only `KeyboardInterrupt`
is caught. -/
def main_run (env : MainEnv) : List Event × Except PyExc Unit :=
  let pre := headerEvents ++ provisionEvents env
  match env.serverCtorRes with
  | .error e => (pre ++ [.serverConstruct "" PORT], .error e)
  | .ok _ =>
    match env.wrapRes with
    | .error e =>
      (pre ++ [.serverConstruct "" PORT, .tlsWrap "./cert.pem" (certAfterProvision env)],
       .error e)
    | .ok _ =>
      match (get_local_ip env.net).2 with
      | .error e =>
        (pre ++ [.serverConstruct "" PORT, .tlsWrap "./cert.pem" (certAfterProvision env),
                 .getLocalIpCall],
         .error e)
      | .ok ip =>
        match env.serveRes with
        | .keyboardInterrupt =>
          (pre ++ [.serverConstruct "" PORT, .tlsWrap "./cert.pem" (certAfterProvision env),
                   .getLocalIpCall] ++ banner ip ++ [.serveForever] ++ [.printLine shutdownMsg],
           .ok ())
        | .other s =>
          (pre ++ [.serverConstruct "" PORT, .tlsWrap "./cert.pem" (certAfterProvision env),
                   .getLocalIpCall] ++ banner ip ++ [.serveForever],
           .error (.other s))

/-- Helper: `get_local_ip` returns normally in every environment. -/
lemma get_local_ip_isOk (env : NetEnv) : ∃ s, (get_local_ip env).2 = Except.ok s := by
  obtain ⟨s1, s2, s3, s4⟩ := env
  cases s1 <;> cases s2 <;> cases s3 <;> cases s4 <;> simp [get_local_ip]

/-- C2: when `cert.pem` already exists at startup no external command is run
(`os.system` is never invoked); when it is absent, the openssl invocation is
performed. -/
theorem c2_idempotent_provisioning (env : MainEnv) :
    (env.certExists = true → ∀ cmd, Event.osSystem cmd ∉ (main_run env).1) ∧
    (env.certExists = false → Event.osSystem opensslCmd ∈ (main_run env).1) := by
  obtain ⟨ce, oe, oc, sc, wr, net, sv⟩ := env
  obtain ⟨ip, hip⟩ := get_local_ip_isOk net
  constructor
  · rintro rfl cmd
    cases sc <;> cases wr <;> cases sv <;>
      simp [main_run, headerEvents, provisionEvents, banner, hip]
  · rintro rfl
    cases sc <;> cases wr <;> cases sv <;>
      simp [main_run, headerEvents, provisionEvents, banner, hip]

/-- Witness for C2: with the certificate present no command runs, and with it
absent the openssl command is in the trace. -/
theorem c2_idempotent_provisioning_witness :
    (∀ cmd, Event.osSystem cmd ∉
      (main_run ⟨true, 0, false, Except.ok (), Except.ok (),
        ⟨Except.ok (), Except.ok (), Except.ok "10.0.0.2", Except.ok ()⟩,
        PyExc.keyboardInterrupt⟩).1) ∧
    Event.osSystem opensslCmd ∈
      (main_run ⟨false, 0, true, Except.ok (), Except.ok (),
        ⟨Except.ok (), Except.ok (), Except.ok "10.0.0.2", Except.ok ()⟩,
        PyExc.keyboardInterrupt⟩).1 :=
  ⟨(c2_idempotent_provisioning _).1 rfl,
   (c2_idempotent_provisioning _).2 rfl⟩

/-- C3: the only external command ever invoked is `opensslCmd`, and its
tokens request a self-signed X.509 certificate (`-x509`), a 365-day validity
window (`-days 365`), an unencrypted private key (`-nodes`), common name
"localhost" (`-subj "/CN=localhost"`), with key and certificate written to
the same file: the arguments of `-keyout` and `-out` are both `cert.pem`. -/
theorem c3_openssl_command (env : MainEnv) :
    (∀ cmd, Event.osSystem cmd ∈ (main_run env).1 → cmd = opensslCmd) ∧
    cmdTokens opensslCmd =
      ["openssl", "req", "-new", "-x509", "-keyout", "cert.pem",
       "-out", "cert.pem", "-days", "365", "-nodes", "-subj", "\"/CN=localhost\""] ∧
    (cmdTokens opensslCmd).get? 5 = (cmdTokens opensslCmd).get? 7 ∧
    (cmdTokens opensslCmd).get? 5 = some "cert.pem" := by
  obtain ⟨ce, oe, oc, sc, wr, net, sv⟩ := env
  obtain ⟨ip, hip⟩ := get_local_ip_isOk net
  refine ⟨?_, by decide, by decide, by decide⟩
  intro cmd hmem
  cases ce <;> cases sc <;> cases wr <;> cases sv <;>
    simp [main_run, headerEvents, provisionEvents, banner, hip] at hmem <;>
    exact hmem

/-- Witness for C3: the command found in a concrete trace is `opensslCmd`. -/
theorem c3_openssl_command_witness :
    opensslCmd = opensslCmd ∧
    cmdTokens opensslCmd =
      ["openssl", "req", "-new", "-x509", "-keyout", "cert.pem",
       "-out", "cert.pem", "-days", "365", "-nodes", "-subj", "\"/CN=localhost\""] :=
  ⟨(c3_openssl_command ⟨false, 0, true, Except.error (PyExc.other "OSError"), Except.ok (),
      ⟨Except.ok (), Except.ok (), Except.ok "10.0.0.2", Except.ok ()⟩,
      PyExc.keyboardInterrupt⟩).1 opensslCmd (by decide),
   (c3_openssl_command ⟨false, 0, true, Except.error (PyExc.other "OSError"), Except.ok (),
      ⟨Except.ok (), Except.ok (), Except.ok "10.0.0.2", Except.ok ()⟩,
      PyExc.keyboardInterrupt⟩).2.1⟩

/-- C4: when the certificate is absent and the external invocation runs, its
exit status is never consulted: the whole behaviour of `main` is unchanged
under any exit status (including failures), and execution proceeds to server
construction, and to the TLS wrap once construction succeeds, even when the
invocation produced no certificate file. -/
theorem c4_openssl_failure_ignored (env : MainEnv) (r rr : Int)
    (h : env.certExists = false) :
    main_run {env with opensslExit := r} = main_run {env with opensslExit := rr} ∧
    Event.osSystem opensslCmd ∈ (main_run env).1 ∧
    Event.serverConstruct "" PORT ∈ (main_run env).1 ∧
    (env.serverCtorRes = Except.ok () →
      Event.tlsWrap "./cert.pem" (certAfterProvision env) ∈ (main_run env).1) := by
  obtain ⟨ce, oe, oc, sc, wr, net, sv⟩ := env
  subst h
  obtain ⟨ip, hip⟩ := get_local_ip_isOk net
  refine ⟨rfl, ?_, ?_, ?_⟩
  · cases sc <;> cases wr <;> cases sv <;>
      simp [main_run, headerEvents, provisionEvents, banner, hip]
  · cases sc <;> cases wr <;> cases sv <;>
      simp [main_run, headerEvents, provisionEvents, banner, hip]
  · rintro rfl
    cases wr <;> cases sv <;>
      simp [main_run, headerEvents, provisionEvents, banner, hip]

/-- Witness for C4: concrete environment where openssl fails (exit 1, no file
produced); behaviour is independent of the exit status and the trace still
reaches construction and the TLS wrap. -/
theorem c4_openssl_failure_ignored_witness :
    main_run ⟨false, 1, false, Except.ok (), Except.error (PyExc.other "SSLError"),
        ⟨Except.ok (), Except.ok (), Except.ok "10.0.0.2", Except.ok ()⟩,
        PyExc.keyboardInterrupt⟩ =
      main_run ⟨false, 0, false, Except.ok (), Except.error (PyExc.other "SSLError"),
        ⟨Except.ok (), Except.ok (), Except.ok "10.0.0.2", Except.ok ()⟩,
        PyExc.keyboardInterrupt⟩ ∧
    Event.tlsWrap "./cert.pem"
        (certAfterProvision ⟨false, 1, false, Except.ok (), Except.error (PyExc.other "SSLError"),
          ⟨Except.ok (), Except.ok (), Except.ok "10.0.0.2", Except.ok ()⟩,
          PyExc.keyboardInterrupt⟩) ∈
      (main_run ⟨false, 1, false, Except.ok (), Except.error (PyExc.other "SSLError"),
        ⟨Except.ok (), Except.ok (), Except.ok "10.0.0.2", Except.ok ()⟩,
        PyExc.keyboardInterrupt⟩).1 :=
  ⟨(c4_openssl_failure_ignored ⟨false, 1, false, Except.ok (), Except.error (PyExc.other "SSLError"),
      ⟨Except.ok (), Except.ok (), Except.ok "10.0.0.2", Except.ok ()⟩,
      PyExc.keyboardInterrupt⟩ 1 0 rfl).1,
   (c4_openssl_failure_ignored ⟨false, 1, false, Except.ok (), Except.error (PyExc.other "SSLError"),
      ⟨Except.ok (), Except.ok (), Except.ok "10.0.0.2", Except.ok ()⟩,
      PyExc.keyboardInterrupt⟩ 1 0 rfl).2.2.2 rfl⟩

/-- C5: a `KeyboardInterrupt` ending the serve loop is the only condition
`main` handles: it yields a normal return whose final action prints the
shutdown message; any other exception ending the serve loop, and any
exception raised by server construction or by the TLS wrap (including a
`KeyboardInterrupt` raised there), propagates to the caller unchanged. -/
theorem c5_keyboard_interrupt_only (env : MainEnv) :
    (∀ e, env.serverCtorRes = Except.error e → (main_run env).2 = Except.error e) ∧
    (∀ e, env.serverCtorRes = Except.ok () → env.wrapRes = Except.error e →
      (main_run env).2 = Except.error e) ∧
    (env.serverCtorRes = Except.ok () → env.wrapRes = Except.ok () →
      env.serveRes = PyExc.keyboardInterrupt →
      (main_run env).2 = Except.ok () ∧
      ∃ l, (main_run env).1 = l ++ [Event.printLine shutdownMsg]) ∧
    (∀ s, env.serverCtorRes = Except.ok () → env.wrapRes = Except.ok () →
      env.serveRes = PyExc.other s → (main_run env).2 = Except.error (PyExc.other s)) := by
  obtain ⟨ce, oe, oc, sc, wr, net, sv⟩ := env
  obtain ⟨ip, hip⟩ := get_local_ip_isOk net
  refine ⟨?_, ?_, ?_, ?_⟩
  · rintro e rfl
    cases wr <;> cases sv <;> simp [main_run, hip]
  · rintro e rfl rfl
    simp [main_run, hip]
  · rintro rfl rfl rfl
    simp only [main_run, hip]
    exact ⟨trivial, _, rfl⟩
  · rintro s rfl rfl rfl
    simp [main_run, hip]

/-- Witness for C5: a concrete run ended by `KeyboardInterrupt` returns
normally, and one ended by another exception propagates it. -/
theorem c5_keyboard_interrupt_only_witness :
    ((main_run ⟨true, 0, false, Except.ok (), Except.ok (),
        ⟨Except.ok (), Except.ok (), Except.ok "10.0.0.2", Except.ok ()⟩,
        PyExc.keyboardInterrupt⟩).2 = Except.ok () ∧
     ∃ l, (main_run ⟨true, 0, false, Except.ok (), Except.ok (),
        ⟨Except.ok (), Except.ok (), Except.ok "10.0.0.2", Except.ok ()⟩,
        PyExc.keyboardInterrupt⟩).1 = l ++ [Event.printLine shutdownMsg]) ∧
    (main_run ⟨true, 0, false, Except.ok (), Except.ok (),
        ⟨Except.ok (), Except.ok (), Except.ok "10.0.0.2", Except.ok ()⟩,
        PyExc.other "RuntimeError"⟩).2 = Except.error (PyExc.other "RuntimeError") :=
  ⟨(c5_keyboard_interrupt_only _).2.2.1 rfl rfl rfl,
   (c5_keyboard_interrupt_only _).2.2.2 "RuntimeError" rfl rfl rfl⟩

/-- C6: the server configuration is a constant of the program: every server
construction event in every execution binds the empty address (all
interfaces) and port 8000, every TLS wrap uses the certificate file
`./cert.pem`, and a construction event is part of every trace. No field of
the environment (the only input) can change the port. -/
theorem c6_fixed_port_and_cert (env : MainEnv) :
    PORT = 8000 ∧
    Event.serverConstruct "" 8000 ∈ (main_run env).1 ∧
    (∀ a p, Event.serverConstruct a p ∈ (main_run env).1 → a = "" ∧ p = 8000) ∧
    (∀ c b, Event.tlsWrap c b ∈ (main_run env).1 → c = "./cert.pem") := by
  obtain ⟨ce, oe, oc, sc, wr, net, sv⟩ := env
  obtain ⟨ip, hip⟩ := get_local_ip_isOk net
  refine ⟨rfl, ?_, ?_, ?_⟩
  · cases ce <;> cases sc <;> cases wr <;> cases sv <;>
      simp [main_run, headerEvents, provisionEvents, banner, hip, PORT]
  · intro a p hmem
    cases ce <;> cases sc <;> cases wr <;> cases sv <;>
      simp [main_run, headerEvents, provisionEvents, banner, hip, PORT] at hmem <;>
      exact hmem
  · intro c b hmem
    cases ce <;> cases sc <;> cases wr <;> cases sv <;>
      simp [main_run, headerEvents, provisionEvents, banner, hip, PORT] at hmem <;>
      exact hmem.1

/-- Witness for C6: the constraints evaluated on two concrete events of a
concrete trace. -/
theorem c6_fixed_port_and_cert_witness :
    ("" : String) = "" ∧ (8000 : Nat) = 8000 ∧ ("./cert.pem" : String) = "./cert.pem" := by
  have h1 := (c6_fixed_port_and_cert ⟨true, 0, false, Except.ok (), Except.ok (),
    ⟨Except.ok (), Except.ok (), Except.ok "10.0.0.2", Except.ok ()⟩,
    PyExc.keyboardInterrupt⟩).2.2.1 "" 8000 (by decide)
  have h2 := (c6_fixed_port_and_cert ⟨true, 0, false, Except.ok (), Except.ok (),
    ⟨Except.ok (), Except.ok (), Except.ok "10.0.0.2", Except.ok ()⟩,
    PyExc.keyboardInterrupt⟩).2.2.2 "./cert.pem" true (by decide)
  exact ⟨h1.1, h1.2, h2⟩

/-- C7: whenever construction and the TLS wrap both succeed, the banner is
printed: it contains the local URL `https://localhost:8000`, the LAN URL
`https://<ip>:8000` where `<ip>` is exactly the value `get_local_ip`
returned, and the self-signed-certificate warning; and the banner consists
of console prints only. -/
theorem c7_startup_report (env : MainEnv)
    (hc : env.serverCtorRes = Except.ok ()) (hw : env.wrapRes = Except.ok ()) :
    ∃ ip, (get_local_ip env.net).2 = Except.ok ip ∧
      localUrl = "   https://localhost:8000" ∧
      lanUrl ip = "   https://" ++ ip ++ ":" ++ "8000" ∧
      Event.printLine localUrl ∈ (main_run env).1 ∧
      Event.printLine (lanUrl ip) ∈ (main_run env).1 ∧
      Event.printLine
        "\n⚠️  Note: You\x27ll need to accept the self-signed certificate warning" ∈
        (main_run env).1 ∧
      ∀ e ∈ banner ip, ∃ s, e = Event.printLine s := by
  obtain ⟨ce, oe, oc, sc, wr, net, sv⟩ := env
  obtain ⟨ip, hip⟩ := get_local_ip_isOk net
  cases hc
  cases hw
  refine ⟨ip, hip, by decide, by simp [lanUrl]; rfl, ?_, ?_, ?_, ?_⟩
  · cases ce <;> cases sv <;>
      simp [main_run, headerEvents, provisionEvents, banner, hip]
  · cases ce <;> cases sv <;>
      simp [main_run, headerEvents, provisionEvents, banner, hip]
  · cases ce <;> cases sv <;>
      simp [main_run, headerEvents, provisionEvents, banner, hip]
  · intro e he
    simp [banner] at he
    rcases he with h | h | h | h | h | h | h | h | h <;> exact ⟨_, h⟩

/-- Witness for C7: a concrete successful startup. -/
theorem c7_startup_report_witness :
    ∃ ip, (get_local_ip ⟨Except.ok (), Except.ok (), Except.ok "10.0.0.2",
        Except.ok ()⟩).2 = Except.ok ip ∧
      localUrl = "   https://localhost:8000" ∧
      lanUrl ip = "   https://" ++ ip ++ ":" ++ "8000" ∧
      Event.printLine localUrl ∈
        (main_run ⟨true, 0, false, Except.ok (), Except.ok (),
          ⟨Except.ok (), Except.ok (), Except.ok "10.0.0.2", Except.ok ()⟩,
          PyExc.keyboardInterrupt⟩).1 ∧
      Event.printLine (lanUrl ip) ∈
        (main_run ⟨true, 0, false, Except.ok (), Except.ok (),
          ⟨Except.ok (), Except.ok (), Except.ok "10.0.0.2", Except.ok ()⟩,
          PyExc.keyboardInterrupt⟩).1 ∧
      Event.printLine
        "\n⚠️  Note: You\x27ll need to accept the self-signed certificate warning" ∈
        (main_run ⟨true, 0, false, Except.ok (), Except.ok (),
          ⟨Except.ok (), Except.ok (), Except.ok "10.0.0.2", Except.ok ()⟩,
          PyExc.keyboardInterrupt⟩).1 ∧
      ∀ e ∈ banner ip, ∃ s, e = Event.printLine s :=
  c7_startup_report ⟨true, 0, false, Except.ok (), Except.ok (),
    ⟨Except.ok (), Except.ok (), Except.ok "10.0.0.2", Except.ok ()⟩,
    PyExc.keyboardInterrupt⟩ rfl rfl

/-- C8 counterexample: an execution in which `cert.pem` is absent at startup
and the openssl invocation fails to produce it still reaches the TLS wrap of
the listening socket with the certificate file not existing on disk, so the
stated invariant does not hold for all executions. -/
theorem c8_cert_invariant_counterexample :
    Event.tlsWrap "./cert.pem" false ∈
      (main_run ⟨false, 1, false, Except.ok (), Except.error (PyExc.other "SSLError"),
        ⟨Except.ok (), Except.ok (), Except.ok "10.0.0.2", Except.ok ()⟩,
        PyExc.keyboardInterrupt⟩).1 := by
  simp [main_run, headerEvents, provisionEvents, certAfterProvision]

/-- C8 (amended): at the moment the listening socket is wrapped with TLS,
`cert.pem` exists exactly when it already existed at startup or the external
generation step actually produced it; in executions where generation was
invoked but failed, the wrap is reached with the file absent (and the wrap
step is where that failure manifests). -/
theorem c8_cert_state_at_wrap (env : MainEnv) :
    ∀ c b, Event.tlsWrap c b ∈ (main_run env).1 →
      b = (env.certExists || env.opensslCreatesFile) := by
  obtain ⟨ce, oe, oc, sc, wr, net, sv⟩ := env
  obtain ⟨ip, hip⟩ := get_local_ip_isOk net
  intro c b hmem
  cases ce <;> cases sc <;> cases wr <;> cases sv <;>
    simp [main_run, headerEvents, provisionEvents, banner, hip, certAfterProvision] at hmem <;>
    simp [hmem.2]

/-- Witness for C8 (amended): evaluated at the counterexample execution, the
file state recorded at the wrap is exactly "existed at startup or produced". -/
theorem c8_cert_state_at_wrap_witness :
    (false : Bool) = (false || false) :=
  c8_cert_state_at_wrap
    ⟨false, 1, false, Except.ok (), Except.error (PyExc.other "SSLError"),
      ⟨Except.ok (), Except.ok (), Except.ok "10.0.0.2", Except.ok ()⟩,
      PyExc.keyboardInterrupt⟩ "./cert.pem" false
    (by simp [main_run, headerEvents, provisionEvents, certAfterProvision])

/-- The only strings `main` can print before the server is constructed and
TLS-wrapped: the two header lines and the two certificate-generation
notices. -/
def earlyStrings : List String :=
  ["🎬 Head Tilt YouTube Controller - Local Server", sepLine,
   "\n📝 Generating self-signed certificate...",
   "   (You\x27ll need to accept the security warning in your browser)"]

/-- The LAN URL line starts with three spaces and then `https`, so its
fourth character is `h`. -/
lemma lanUrl_char3 (ip : String) : (lanUrl ip).data[3]? = some 'h' := by
  have h : (lanUrl ip).data =
      "   https://".data ++ (ip.data ++ (":".data ++ (toString PORT).data)) := by
    simp [lanUrl, String.data_append, List.append_assoc]
  rw [h, List.getElem?_append_left (by decide)]
  decide

/-- No early string is the LAN URL line, whatever the resolved address is. -/
lemma lanUrl_not_early (ip : String) : lanUrl ip ∉ earlyStrings := by
  intro hmem
  have h3 := lanUrl_char3 ip
  simp [earlyStrings] at hmem
  rcases hmem with h | h | h | h <;> rw [h] at h3 <;>
    exact absurd h3 (by decide)

/-- C10: in every execution, a failure of server construction or of the TLS
wrap terminates `main` before the LAN address is resolved and before any URL
or the "Server started" banner is printed (the only prints in such traces are
the early header and provisioning notices, none of which is a URL or the
banner); and when both steps succeed, the trace places construction, the TLS
wrap, the `get_local_ip` call and only then the banner, in that order. -/
theorem c10_wrap_before_report (env : MainEnv) :
    (∀ e, env.serverCtorRes = Except.error e →
      Event.getLocalIpCall ∉ (main_run env).1 ∧
      ∀ s, Event.printLine s ∈ (main_run env).1 → s ∈ earlyStrings) ∧
    (∀ e, env.serverCtorRes = Except.ok () → env.wrapRes = Except.error e →
      Event.getLocalIpCall ∉ (main_run env).1 ∧
      ∀ s, Event.printLine s ∈ (main_run env).1 → s ∈ earlyStrings) ∧
    ("\n✅ Server started!" ∉ earlyStrings ∧ localUrl ∉ earlyStrings ∧
      ∀ ip, lanUrl ip ∉ earlyStrings) ∧
    (env.serverCtorRes = Except.ok () → env.wrapRes = Except.ok () →
      ∃ ip rest, (get_local_ip env.net).2 = Except.ok ip ∧
        (main_run env).1 =
          (headerEvents ++ provisionEvents env) ++
            [Event.serverConstruct "" PORT,
             Event.tlsWrap "./cert.pem" (certAfterProvision env),
             Event.getLocalIpCall] ++ banner ip ++ Event.serveForever :: rest) := by
  obtain ⟨ce, oe, oc, sc, wr, net, sv⟩ := env
  obtain ⟨ip, hip⟩ := get_local_ip_isOk net
  refine ⟨?_, ?_, ⟨by decide, by decide, lanUrl_not_early⟩, ?_⟩
  · rintro e rfl
    constructor
    · cases ce <;> simp [main_run, headerEvents, provisionEvents]
    · intro s hs
      cases ce <;> simp [main_run, headerEvents, provisionEvents] at hs <;>
        simp [earlyStrings] <;> tauto
  · rintro e rfl rfl
    constructor
    · cases ce <;> simp [main_run, headerEvents, provisionEvents]
    · intro s hs
      cases ce <;> simp [main_run, headerEvents, provisionEvents] at hs <;>
        simp [earlyStrings] <;> tauto
  · rintro rfl rfl
    cases sv
    · refine ⟨ip, [Event.printLine shutdownMsg], hip, ?_⟩
      simp [main_run, hip]
    · refine ⟨ip, [], hip, ?_⟩
      simp [main_run, hip]

/-- Witness for C10: a concrete bind failure prints no URL and resolves no
address, and a concrete successful startup has the ordered trace shape. -/
theorem c10_wrap_before_report_witness :
    (Event.getLocalIpCall ∉
      (main_run ⟨true, 0, false, Except.error (PyExc.other "OSError"), Except.ok (),
        ⟨Except.ok (), Except.ok (), Except.ok "10.0.0.2", Except.ok ()⟩,
        PyExc.keyboardInterrupt⟩).1 ∧
     ∀ s, Event.printLine s ∈
        (main_run ⟨true, 0, false, Except.error (PyExc.other "OSError"), Except.ok (),
          ⟨Except.ok (), Except.ok (), Except.ok "10.0.0.2", Except.ok ()⟩,
          PyExc.keyboardInterrupt⟩).1 → s ∈ earlyStrings) ∧
    (∃ ip rest,
      (get_local_ip ⟨Except.ok (), Except.ok (), Except.ok "10.0.0.2",
        Except.ok ()⟩).2 = Except.ok ip ∧
      (main_run ⟨true, 0, false, Except.ok (), Except.ok (),
        ⟨Except.ok (), Except.ok (), Except.ok "10.0.0.2", Except.ok ()⟩,
        PyExc.keyboardInterrupt⟩).1 =
        (headerEvents ++ provisionEvents ⟨true, 0, false, Except.ok (), Except.ok (),
          ⟨Except.ok (), Except.ok (), Except.ok "10.0.0.2", Except.ok ()⟩,
          PyExc.keyboardInterrupt⟩) ++
          [Event.serverConstruct "" PORT,
           Event.tlsWrap "./cert.pem"
             (certAfterProvision ⟨true, 0, false, Except.ok (), Except.ok (),
               ⟨Except.ok (), Except.ok (), Except.ok "10.0.0.2", Except.ok ()⟩,
               PyExc.keyboardInterrupt⟩),
           Event.getLocalIpCall] ++ banner ip ++ Event.serveForever :: rest) :=
  ⟨(c10_wrap_before_report ⟨true, 0, false, Except.error (PyExc.other "OSError"),
      Except.ok (), ⟨Except.ok (), Except.ok (), Except.ok "10.0.0.2", Except.ok ()⟩,
      PyExc.keyboardInterrupt⟩).1 (PyExc.other "OSError") rfl,
   (c10_wrap_before_report ⟨true, 0, false, Except.ok (), Except.ok (),
      ⟨Except.ok (), Except.ok (), Except.ok "10.0.0.2", Except.ok ()⟩,
      PyExc.keyboardInterrupt⟩).2.2.2 rfl rfl⟩
